import Mathlib

/-!
Shallow embedding of the `webplate` repository: a Flask application factory
(`src/app/__init__.py`) and a views blueprint (`src/app/views.py`).

The framework-level behaviour the code delegates to (Flask configuration
overlays, `pathlib` directory creation, blueprint dispatch and Jinja template
rendering) is modelled explicitly: configuration mappings are association
lists, the filesystem is an abstract state of existing directories and regular
files, and HTTP dispatch is a function from method and path to a response.
-/

set_option autoImplicit false

namespace Webplate

/-- Configuration values: Python strings and `pathlib.Path` objects. -/
inductive Value where
  | str (s : String)
  | path (p : String)
  deriving DecidableEq, Repr

/-- A configuration mapping (`app.config`): an association list from option
names to values, first binding of a key wins on reads. -/
abbrev ConfigMap := List (String × Value)

/-- Python dict-style read on an association list: the first matching key
wins. -/
def lookupKey {α : Type} (m : List (String × α)) (k : String) : Option α :=
  match m with
  | [] => none
  | (k', v) :: rest => if k' = k then some v else lookupKey rest k

/-- Update key `k` to value `v`, replacing the existing binding when there is
one and appending a new binding otherwise. -/
def setItem (c : ConfigMap) (k : String) (v : Value) : ConfigMap :=
  match c with
  | [] => [(k, v)]
  | (k', v') :: rest => if k' = k then (k, v) :: rest else (k', v') :: setItem rest k v

/-- Read an option from the configuration (`app.config[k]`). -/
def getItem (c : ConfigMap) (k : String) : Option Value :=
  lookupKey c k

/-- `Config.from_mapping`: overlay every entry of `m` onto `c` in order, later
entries overriding earlier ones and anything already in `c`. -/
def from_mapping (c : ConfigMap) (m : List (String × Value)) : ConfigMap :=
  match m with
  | [] => c
  | (k, v) :: rest => from_mapping (setItem c k v) rest

/-- Abstract filesystem state: the directories that exist, and the regular
files that exist; each file path is paired with the configuration mapping that
executing it as a Python config file would produce (irrelevant for files that
are never loaded). -/
structure FileSystem where
  dirs : List String
  files : List (String × List (String × Value))
  deriving DecidableEq, Repr

/-- Whether a regular file exists at path `p`. -/
def FileSystem.fileExists (fs : FileSystem) (p : String) : Bool :=
  (lookupKey fs.files p).isSome

/-- `pathlib.Path.mkdir(exist_ok=True)`: succeed without change when the
directory already exists, fail when a regular file occupies the path, and
otherwise create the directory. Returns the updated list of existing
directories, the only filesystem state this repository ever writes. -/
def mkdirExistOk (fs : FileSystem) (p : String) : Except String (List String) :=
  if p ∈ fs.dirs then .ok fs.dirs
  else if fs.fileExists p then .error "FileExistsError"
  else .ok (p :: fs.dirs)

/-- `Config.from_pyfile(name, silent=True)`: when the file exists, overlay the
mapping it defines onto the configuration; when it is missing, silently leave
the configuration unchanged. -/
def from_pyfile_silent (c : ConfigMap) (fs : FileSystem) (p : String) : ConfigMap :=
  match lookupKey fs.files p with
  | some m => from_mapping c m
  | none => c

/-- HTTP request methods. -/
inductive Method where
  | GET
  | HEAD
  | OPTIONS
  | POST
  | PUT
  | DELETE
  | PATCH
  deriving DecidableEq, Repr

/-- Route handlers defined by this repository: only `views.index`. -/
inductive Handler where
  | index
  deriving DecidableEq, Repr

/-- A registered URL rule: its path, its declared methods and its handler. -/
structure Route where
  rule : String
  methods : List Method
  handler : Handler
  deriving DecidableEq, Repr

/-- The `views` blueprint of `src/app/views.py`: exactly one rule, `/`,
declared for `GET` and dispatched to `index`. -/
def bp : List Route :=
  [{ rule := "/", methods := [Method.GET], handler := Handler.index }]

/-- A Flask application object: its configuration mapping and its registered
routes. -/
structure App where
  config : ConfigMap
  routes : List Route
  deriving DecidableEq, Repr

/-- Filesystem path join, `Path.__truediv__`. -/
def pathJoin (a b : String) : String := a ++ "/" ++ b

/-- Step 2 of `create_app`: the default configuration, mapping `DATABASE` to
`<instance_path>/dataset.parquet` (a `Path` value). -/
def default_config (instance_path : String) : ConfigMap :=
  from_mapping [] [("DATABASE", Value.path (pathJoin instance_path "dataset.parquet"))]

/-- Step 3 of `create_app`: when `test_config` is `none`, overlay
`<instance_path>/config.py` silently, and when it is supplied, overlay it
directly, bypassing the file. -/
def build_config (instance_path : String) (fs : FileSystem)
    (test_config : Option (List (String × Value))) : ConfigMap :=
  match test_config with
  | none => from_pyfile_silent (default_config instance_path) fs (pathJoin instance_path "config.py")
  | some tc => from_mapping (default_config instance_path) tc

/-- `create_app` from `src/app/__init__.py`: build the configuration (default,
then config file or test config), register the `views` blueprint, and ensure
the instance directory exists. Returns the application together with the
updated directory list; a directory-creation failure propagates as the
error. -/
def create_app (instance_path : String) (fs : FileSystem)
    (test_config : Option (List (String × Value))) :
    Except String (App × List String) :=
  match mkdirExistOk fs instance_path with
  | .ok dirs => .ok ({ config := build_config instance_path fs test_config, routes := bp }, dirs)
  | .error e => .error e

/-- The template search path of the deployment: the rendered content for each
template name (template content is opaque to this repository). -/
abbrev TemplateEnv := List (String × String)

/-- `flask.render_template` with no template variables: look the template up
in the search path; a missing template raises `TemplateNotFound`. -/
def render_template (templates : TemplateEnv) (name : String) : Except String String :=
  match lookupKey templates name with
  | some rendered => .ok rendered
  | none => .error "TemplateNotFound"

/-- Run a route handler. `index` (`src/app/views.py`) ignores the application
state entirely and renders the fixed template `views/index.html`. -/
def run_handler (h : Handler) (_app : App) (templates : TemplateEnv) : Except String String :=
  match h with
  | .index => render_template templates "views/index.html"

/-- The default Flask response content type for a handler returning a string. -/
def defaultContentType : String := "text/html; charset=utf-8"

/-- An HTTP response: status code, content type and body. -/
structure HttpResponse where
  status : Nat
  contentType : String
  body : String
  deriving DecidableEq, Repr

/-- Find the registered route whose rule matches the request path. -/
def findRoute (routes : List Route) (p : String) : Option Route :=
  match routes with
  | [] => none
  | r :: rest => if r.rule = p then some r else findRoute rest p

/-- Framework dispatch of one request. An unmatched path gets the default 404
response. On a matched rule, a declared method runs the handler (an unhandled
handler error becomes the default 500 response); `HEAD` is implied by a
declared `GET` with the body stripped; `OPTIONS` is answered automatically;
any other method gets the default 405 response. -/
def full_dispatch (app : App) (templates : TemplateEnv) (m : Method) (p : String) :
    HttpResponse :=
  match findRoute app.routes p with
  | none => { status := 404, contentType := defaultContentType, body := "Not Found" }
  | some r =>
    if m ∈ r.methods then
      match run_handler r.handler app templates with
      | .ok body => { status := 200, contentType := defaultContentType, body := body }
      | .error _ => { status := 500, contentType := defaultContentType, body := "Internal Server Error" }
    else if m = Method.HEAD ∧ Method.GET ∈ r.methods then
      match run_handler r.handler app templates with
      | .ok _ => { status := 200, contentType := defaultContentType, body := "" }
      | .error _ => { status := 500, contentType := defaultContentType, body := "Internal Server Error" }
    else if m = Method.OPTIONS then
      { status := 200, contentType := defaultContentType, body := "" }
    else
      { status := 405, contentType := defaultContentType, body := "Method Not Allowed" }

/-! Helper lemmas about configuration overlays and the factory. -/

theorem lookupKey_setItem_self (c : ConfigMap) (k : String) (v : Value) :
    lookupKey (setItem c k v) k = some v := by
  induction c with
  | nil => simp [setItem, lookupKey]
  | cons kv rest ih =>
    obtain ⟨k', v'⟩ := kv
    by_cases h : k' = k
    · subst h
      simp [setItem, lookupKey]
    · simp [setItem, lookupKey, h, ih]

theorem lookupKey_setItem_ne (c : ConfigMap) (kw kr : String) (v : Value) (h : kw ≠ kr) :
    lookupKey (setItem c kw v) kr = lookupKey c kr := by
  induction c with
  | nil => simp [setItem, lookupKey, h]
  | cons kv rest ih =>
    obtain ⟨k', v'⟩ := kv
    by_cases h' : k' = kw
    · subst h'
      simp [setItem, lookupKey, h]
    · simp [setItem, lookupKey, h', ih]

theorem lookupKey_eq_none_of_not_mem {α : Type} (m : List (String × α)) (k : String)
    (h : k ∉ m.map Prod.fst) : lookupKey m k = none := by
  induction m with
  | nil => rfl
  | cons kv rest ih =>
    obtain ⟨k', v'⟩ := kv
    simp only [List.map_cons, List.mem_cons] at h
    push_neg at h
    simp [lookupKey, Ne.symm h.1, ih h.2]

theorem lookupKey_from_mapping_none (m : List (String × Value)) (c : ConfigMap) (k : String)
    (h : lookupKey m k = none) : lookupKey (from_mapping c m) k = lookupKey c k := by
  induction m generalizing c with
  | nil => rfl
  | cons kv rest ih =>
    obtain ⟨k1, v1⟩ := kv
    by_cases h1 : k1 = k
    · simp [lookupKey, h1] at h
    · simp only [lookupKey, if_neg h1] at h
      simp only [from_mapping]
      rw [ih _ h, lookupKey_setItem_ne _ _ _ _ h1]

theorem lookupKey_from_mapping_of_lookup (m : List (String × Value)) (c : ConfigMap)
    (k : String) (v : Value) (hnd : (m.map Prod.fst).Nodup) (hl : lookupKey m k = some v) :
    lookupKey (from_mapping c m) k = some v := by
  induction m generalizing c with
  | nil => simp [lookupKey] at hl
  | cons kv rest ih =>
    obtain ⟨k1, v1⟩ := kv
    simp only [List.map_cons, List.nodup_cons] at hnd
    by_cases h1 : k1 = k
    · subst h1
      simp [lookupKey] at hl
      subst hl
      simp only [from_mapping]
      rw [lookupKey_from_mapping_none _ _ _ (lookupKey_eq_none_of_not_mem _ _ hnd.1)]
      exact lookupKey_setItem_self _ _ _
    · simp only [lookupKey, if_neg h1] at hl
      simp only [from_mapping]
      exact ih _ hnd.2 hl

theorem create_app_ok_app (ip : String) (fs : FileSystem)
    (tc : Option (List (String × Value))) (a : App) (d : List String)
    (h : create_app ip fs tc = .ok (a, d)) :
    a = { config := build_config ip fs tc, routes := bp } := by
  unfold create_app at h
  cases hmk : mkdirExistOk fs ip with
  | ok dirs => rw [hmk] at h; simp only [Except.ok.injEq, Prod.mk.injEq] at h; exact h.1.symm
  | error e => rw [hmk] at h; simp at h

theorem create_app_ok_mkdir (ip : String) (fs : FileSystem)
    (tc : Option (List (String × Value))) (a : App) (d : List String)
    (h : create_app ip fs tc = .ok (a, d)) : mkdirExistOk fs ip = .ok d := by
  unfold create_app at h
  cases hmk : mkdirExistOk fs ip with
  | ok dirs => rw [hmk] at h; simp only [Except.ok.injEq, Prod.mk.injEq] at h; rw [h.2]
  | error e => rw [hmk] at h; simp at h

theorem mkdirExistOk_ok_mem (fs : FileSystem) (p : String) (d : List String)
    (h : mkdirExistOk fs p = .ok d) : p ∈ d := by
  unfold mkdirExistOk at h
  split at h
  · simp only [Except.ok.injEq] at h
    subst h
    assumption
  · split at h
    · simp at h
    · simp only [Except.ok.injEq] at h
      subst h
      exact List.mem_cons_self _ _

theorem mkdirExistOk_of_mem (fs : FileSystem) (p : String) (h : p ∈ fs.dirs) :
    mkdirExistOk fs p = .ok fs.dirs := by
  unfold mkdirExistOk
  rw [if_pos h]

theorem create_app_eq_of_mkdir_ok (ip : String) (fs : FileSystem)
    (tc : Option (List (String × Value))) (d : List String)
    (h : mkdirExistOk fs ip = .ok d) :
    create_app ip fs tc = .ok ({ config := build_config ip fs tc, routes := bp }, d) := by
  unfold create_app
  rw [h]

/-! Claim theorems. -/

/-- Claim C1: for every call `create_app(test_config)` where `test_config` is a
mapping (distinct keys, as in a Python dict) containing the key `DATABASE` with
value `"x"`, the returned application's configuration maps `DATABASE` to `"x"`:
the supplied mapping overrides the default set in step 2. -/
theorem create_app_test_config_overrides_default
    (ip : String) (fs : FileSystem) (tc : List (String × Value))
    (a : App) (d : List String)
    (hnd : (tc.map Prod.fst).Nodup)
    (hx : lookupKey tc "DATABASE" = some (Value.str "x"))
    (h : create_app ip fs (some tc) = .ok (a, d)) :
    getItem a.config "DATABASE" = some (Value.str "x") := by
  rw [create_app_ok_app _ _ _ _ _ h]
  exact lookupKey_from_mapping_of_lookup _ _ _ _ hnd hx

theorem create_app_test_config_overrides_default_witness :
    getItem (App.mk [("DATABASE", Value.str "x")] bp).config "DATABASE"
      = some (Value.str "x") :=
  create_app_test_config_overrides_default "/inst" ⟨[], []⟩
    [("DATABASE", Value.str "x")] (App.mk [("DATABASE", Value.str "x")] bp) ["/inst"]
    (by decide) (by rfl) (by rfl)

/-- Claim C2: for every call `create_app()` with no `test_config` and no
`config.py` file present in the instance directory, the returned application's
configuration maps `DATABASE` to the path `<instance_dir>/dataset.parquet`. -/
theorem create_app_default_database
    (ip : String) (fs : FileSystem) (a : App) (d : List String)
    (hcfg : lookupKey fs.files (pathJoin ip "config.py") = none)
    (h : create_app ip fs none = .ok (a, d)) :
    getItem a.config "DATABASE" = some (Value.path (pathJoin ip "dataset.parquet")) := by
  rw [create_app_ok_app _ _ _ _ _ h]
  show getItem (build_config ip fs none) "DATABASE" = _
  simp only [build_config, from_pyfile_silent, hcfg]
  simp [default_config, from_mapping, setItem, getItem, lookupKey]

theorem create_app_default_database_witness :
    getItem (App.mk [("DATABASE", Value.path "/inst/dataset.parquet")] bp).config "DATABASE"
      = some (Value.path (pathJoin "/inst" "dataset.parquet")) :=
  create_app_default_database "/inst" ⟨[], []⟩
    (App.mk [("DATABASE", Value.path "/inst/dataset.parquet")] bp) ["/inst"]
    (by rfl) (by rfl)

/-- Claim C3: for every call `create_app(test_config)` with `test_config` not
`None`, the factory overlays `test_config` and performs no read of the
`config.py` file: the result is independent of the presence and contents of
`config.py` (two filesystems that agree everywhere except at that path yield
identical results). -/
theorem create_app_test_config_bypasses_pyfile
    (ip : String) (dirs : List String)
    (files1 files2 : List (String × List (String × Value)))
    (tc : List (String × Value))
    (hf : ∀ p, p ≠ pathJoin ip "config.py" → lookupKey files1 p = lookupKey files2 p) :
    create_app ip ⟨dirs, files1⟩ (some tc) = create_app ip ⟨dirs, files2⟩ (some tc) := by
  have hip : ip ≠ pathJoin ip "config.py" := by
    intro he
    have h1 := congrArg String.length he
    have h2 : ("/" : String).length = 1 := rfl
    have h3 : ("config.py" : String).length = 9 := rfl
    simp only [pathJoin, String.length_append, h2, h3] at h1
    omega
  have hmk : mkdirExistOk ⟨dirs, files1⟩ ip = mkdirExistOk ⟨dirs, files2⟩ ip := by
    simp only [mkdirExistOk, FileSystem.fileExists, hf ip hip]
  unfold create_app
  rw [hmk]
  cases mkdirExistOk ⟨dirs, files2⟩ ip <;> rfl

theorem create_app_test_config_bypasses_pyfile_witness :
    create_app "/inst"
        ⟨[], [(pathJoin "/inst" "config.py", [("DATABASE", Value.str "y")])]⟩
        (some [("SECRET", Value.str "s")])
      = create_app "/inst"
        ⟨[], [(pathJoin "/inst" "config.py", [("DATABASE", Value.str "z")])]⟩
        (some [("SECRET", Value.str "s")]) :=
  create_app_test_config_bypasses_pyfile "/inst" [] _ _ _
    (by intro p hp; simp [lookupKey, Ne.symm hp])

/-- Claim C4: for every call `create_app()` with no `test_config`, if
`config.py` is absent from the instance directory, the factory does not raise
an error and returns normally with the default configuration: the missing file
is silently skipped. -/
theorem create_app_missing_pyfile_ok
    (ip : String) (fs : FileSystem)
    (hcfg : lookupKey fs.files (pathJoin ip "config.py") = none)
    (hip : lookupKey fs.files ip = none) :
    ∃ d, create_app ip fs none = .ok ({ config := default_config ip, routes := bp }, d) := by
  have hbc : build_config ip fs none = default_config ip := by
    simp only [build_config, from_pyfile_silent, hcfg]
  by_cases hd : ip ∈ fs.dirs
  · exact ⟨fs.dirs, by rw [create_app_eq_of_mkdir_ok _ _ _ _ (mkdirExistOk_of_mem _ _ hd), hbc]⟩
  · have hmk : mkdirExistOk fs ip = .ok (ip :: fs.dirs) := by
      simp only [mkdirExistOk, FileSystem.fileExists, hip, if_neg hd, Option.isSome_none,
        Bool.false_eq_true, if_false]
    exact ⟨ip :: fs.dirs, by rw [create_app_eq_of_mkdir_ok _ _ _ _ hmk, hbc]⟩

theorem create_app_missing_pyfile_ok_witness :
    ∃ d, create_app "/inst" ⟨[], []⟩ none
      = .ok ({ config := default_config "/inst", routes := bp }, d) :=
  create_app_missing_pyfile_ok "/inst" ⟨[], []⟩ (by rfl) (by rfl)

/-- Claim C5: calling `create_app` a second time does not fail when the
instance directory already exists: after any successful factory call, a second
call on the resulting filesystem succeeds and leaves the directory list
unchanged (directory creation is an idempotent no-op). -/
theorem create_app_second_call_ok
    (ip : String) (fs : FileSystem) (tc1 tc2 : Option (List (String × Value)))
    (a1 : App) (d1 : List String)
    (h1 : create_app ip fs tc1 = .ok (a1, d1)) :
    ∃ a2, create_app ip { fs with dirs := d1 } tc2 = .ok (a2, d1) := by
  have hmem : ip ∈ d1 := mkdirExistOk_ok_mem _ _ _ (create_app_ok_mkdir _ _ _ _ _ h1)
  exact ⟨{ config := build_config ip { fs with dirs := d1 } tc2, routes := bp },
    create_app_eq_of_mkdir_ok _ _ _ _ (mkdirExistOk_of_mem { fs with dirs := d1 } ip hmem)⟩

theorem create_app_second_call_ok_witness :
    ∃ a2, create_app "/inst" ⟨["/inst"], []⟩ none = .ok (a2, ["/inst"]) :=
  create_app_second_call_ok "/inst" ⟨[], []⟩ none none
    (App.mk (default_config "/inst") bp) ["/inst"] (by rfl)

/-- Claim C6: for every application returned by `create_app`, a GET request to
`/` is dispatched to the `index` handler, which renders the template
`views/index.html` with no template variables and returns the rendered text as
the response body, with success status 200 and the default content type. -/
theorem get_root_renders_index
    (ip : String) (fs : FileSystem) (tc : Option (List (String × Value)))
    (a : App) (d : List String) (templates : TemplateEnv) (body : String)
    (h : create_app ip fs tc = .ok (a, d))
    (ht : lookupKey templates "views/index.html" = some body) :
    full_dispatch a templates Method.GET "/"
      = { status := 200, contentType := defaultContentType, body := body } := by
  rw [create_app_ok_app _ _ _ _ _ h]
  simp [full_dispatch, findRoute, bp, run_handler, render_template, ht]

theorem get_root_renders_index_witness :
    full_dispatch (App.mk (default_config "/inst") bp)
        [("views/index.html", "<h1>webplate</h1>")] Method.GET "/"
      = { status := 200, contentType := defaultContentType, body := "<h1>webplate</h1>" } :=
  get_root_renders_index "/inst" ⟨[], []⟩ none (App.mk (default_config "/inst") bp)
    ["/inst"] [("views/index.html", "<h1>webplate</h1>")] "<h1>webplate</h1>"
    (by rfl) (by rfl)

/-- Claim C7: if `views/index.html` cannot be located in the template search
path, a GET request to `/` raises a rendering error in the handler that is not
handled locally and surfaces as the default 500 server-error response. -/
theorem get_root_template_missing_server_error
    (ip : String) (fs : FileSystem) (tc : Option (List (String × Value)))
    (a : App) (d : List String) (templates : TemplateEnv)
    (h : create_app ip fs tc = .ok (a, d))
    (ht : lookupKey templates "views/index.html" = none) :
    full_dispatch a templates Method.GET "/"
      = { status := 500, contentType := defaultContentType, body := "Internal Server Error" } := by
  rw [create_app_ok_app _ _ _ _ _ h]
  simp [full_dispatch, findRoute, bp, run_handler, render_template, ht]

theorem get_root_template_missing_server_error_witness :
    full_dispatch (App.mk (default_config "/inst") bp) [] Method.GET "/"
      = { status := 500, contentType := defaultContentType, body := "Internal Server Error" } :=
  get_root_template_missing_server_error "/inst" ⟨[], []⟩ none
    (App.mk (default_config "/inst") bp) ["/inst"] [] (by rfl) (by rfl)

/-- Claim C8: for every application returned by `create_app`, a GET request to
any path other than `/` invokes no handler of this repository and yields the
framework's default not-found response; the blueprint registers exactly one
route, at path `/`. -/
theorem get_other_path_not_found
    (ip : String) (fs : FileSystem) (tc : Option (List (String × Value)))
    (a : App) (d : List String) (templates : TemplateEnv) (p : String)
    (hp : p ≠ "/")
    (h : create_app ip fs tc = .ok (a, d)) :
    full_dispatch a templates Method.GET p
        = { status := 404, contentType := defaultContentType, body := "Not Found" }
      ∧ a.routes.map Route.rule = ["/"] := by
  rw [create_app_ok_app _ _ _ _ _ h]
  constructor
  · simp [full_dispatch, findRoute, bp, Ne.symm hp]
  · rfl

theorem get_other_path_not_found_witness :
    (full_dispatch (App.mk (default_config "/inst") bp) [] Method.GET "/other"
        = { status := 404, contentType := defaultContentType, body := "Not Found" }
      ∧ (App.mk (default_config "/inst") bp).routes.map Route.rule = ["/"]) :=
  get_other_path_not_found "/inst" ⟨[], []⟩ none (App.mk (default_config "/inst") bp)
    ["/inst"] [] "/other" (by decide) (by rfl)

/-- Claim C9: the `DATABASE` configuration value is never read: any two
applications built by `create_app` whose configurations agree outside the
`DATABASE` key produce identical responses to every request. -/
theorem database_config_inert
    (ip1 ip2 : String) (fs1 fs2 : FileSystem)
    (tc1 tc2 : Option (List (String × Value)))
    (a1 a2 : App) (d1 d2 : List String)
    (h1 : create_app ip1 fs1 tc1 = .ok (a1, d1))
    (h2 : create_app ip2 fs2 tc2 = .ok (a2, d2))
    (hdiff : ∀ k, k ≠ "DATABASE" → getItem a1.config k = getItem a2.config k)
    (templates : TemplateEnv) (m : Method) (p : String) :
    full_dispatch a1 templates m p = full_dispatch a2 templates m p := by
  rw [create_app_ok_app _ _ _ _ _ h1, create_app_ok_app _ _ _ _ _ h2]
  by_cases hp : "/" = p
  · subst hp
    simp [full_dispatch, findRoute, bp, run_handler]
  · simp [full_dispatch, findRoute, bp, hp]

theorem database_config_inert_witness :
    full_dispatch (App.mk [("DATABASE", Value.path "/a/dataset.parquet")] bp)
        [("views/index.html", "<h1>webplate</h1>")] Method.GET "/"
      = full_dispatch (App.mk [("DATABASE", Value.path "/b/dataset.parquet")] bp)
        [("views/index.html", "<h1>webplate</h1>")] Method.GET "/" :=
  database_config_inert "/a" "/b" ⟨[], []⟩ ⟨[], []⟩ none none
    (App.mk [("DATABASE", Value.path "/a/dataset.parquet")] bp)
    (App.mk [("DATABASE", Value.path "/b/dataset.parquet")] bp)
    ["/a"] ["/b"] (by rfl) (by rfl)
    (by
      intro k hk
      simp [getItem, lookupKey, Ne.symm hk])
    [("views/index.html", "<h1>webplate</h1>")] Method.GET "/"

/-- Claim C10: the route at `/` is declared for GET only: a request to `/`
with a method other than GET and the framework-implied HEAD and OPTIONS is not
dispatched to the `index` handler and is rejected with the default 405
method-not-allowed response rather than not-found. -/
theorem root_non_get_method_not_allowed
    (ip : String) (fs : FileSystem) (tc : Option (List (String × Value)))
    (a : App) (d : List String) (templates : TemplateEnv) (m : Method)
    (h : create_app ip fs tc = .ok (a, d))
    (hm : m ≠ Method.GET ∧ m ≠ Method.HEAD ∧ m ≠ Method.OPTIONS) :
    full_dispatch a templates m "/"
      = { status := 405, contentType := defaultContentType, body := "Method Not Allowed" } := by
  rw [create_app_ok_app _ _ _ _ _ h]
  obtain ⟨hg, hh, ho⟩ := hm
  simp [full_dispatch, findRoute, bp, hg, hh, ho]

theorem root_non_get_method_not_allowed_witness :
    full_dispatch (App.mk (default_config "/inst") bp) [] Method.POST "/"
      = { status := 405, contentType := defaultContentType, body := "Method Not Allowed" } :=
  root_non_get_method_not_allowed "/inst" ⟨[], []⟩ none
    (App.mk (default_config "/inst") bp) ["/inst"] [] Method.POST
    (by rfl) (by decide)

end Webplate
